import Mathlib

/-!
Shallow embedding of the Lattice sensor-data integration service core
(`src/simulation/entities.py`, `src/simulation/movement.py`,
`src/sensors/*.py`, `src/simulation/engine.py`).

Conventions of the embedding:
* Python floats are modelled as rationals (`ℚ`).  The claims settled here
  are order/structural properties, insensitive to rounding.
* The geodesic backend (`src/utils/geo.py`, which delegates to `geopy`)
  is modelled as an explicit context `GeoCtx` of abstract functions
  (`dist`, `bearing`, `destination`) together with the transcendental
  primitives (`sin`, `cos`, `pi`) used by `movement.py`.  The Python code
  depends on the backend only through these calls, so every theorem
  quantifies over the context (adding only hypotheses that are true of
  real geodesic distance, such as non-negativity, where a claim needs
  them).  Concrete witnesses instantiate the context with `flatCtx`.
* Wall-clock reads (`time.time()`) are passed in explicitly as `now`.
* Randomness (`random.random`, `random.uniform`, `random.gauss`) is
  supplied explicitly as draw records; theorems quantify over all draws.
  Gaussian coordinate noise (`add_noise_to_coordinate`) is supplied as
  the resulting degree offsets, since the raw gaussian draw is an
  arbitrary real anyway.
-/

namespace LatticeSim

/-- Kinematic state handed to and returned by movement patterns:
the `{lat, lon, altitude_m, heading_deg, speed_ms}` dictionary of
`MovementPattern.update` in `src/simulation/movement.py`. -/
structure Kin where
  lat : ℚ
  lon : ℚ
  altitude_m : ℚ
  heading_deg : ℚ
  speed_ms : ℚ
  deriving Repr, DecidableEq

/-- Abstract geographic/numeric backend: the functions of
`src/utils/geo.py` plus `math.sin`, `math.cos` and `math.pi` as used by
`src/simulation/movement.py`.  `dist lat1 lon1 lat2 lon2` is in meters,
`bearing` in degrees, `destination lat lon bearing meters` returns the
projected point. -/
structure GeoCtx where
  dist : ℚ → ℚ → ℚ → ℚ → ℚ
  bearing : ℚ → ℚ → ℚ → ℚ → ℚ
  destination : ℚ → ℚ → ℚ → ℚ → ℚ × ℚ
  sin : ℚ → ℚ
  cos : ℚ → ℚ
  pi : ℚ

/-- `math.radians`: degrees to radians. -/
def GeoCtx.radians (ctx : GeoCtx) (x : ℚ) : ℚ := x * ctx.pi / 180

/-- `math.degrees`: radians to degrees. -/
def GeoCtx.degrees (ctx : GeoCtx) (x : ℚ) : ℚ := x * 180 / ctx.pi

/-- Python float `%` with a positive modulus: result in `[0, b)`. -/
def qmod (a b : ℚ) : ℚ := a - b * ⌊a / b⌋

/-- `EntityType` enumeration of `src/simulation/entities.py`. -/
inductive EntityType where
  | aircraft
  | ground_vehicle
  | maritime_vessel
  | unknown_contact
  | stationary_object
  deriving Repr, DecidableEq

/-- `WaypointPattern.__init__` state (`src/simulation/movement.py`,
lines 50-73).  Waypoints are `(lat, lon, optional altitude)`. -/
structure WaypointPattern where
  waypoints : List (ℚ × ℚ × Option ℚ)
  speed_ms : ℚ
  arrival_threshold_m : ℚ
  loop : Bool
  current_waypoint_idx : ℕ
  deriving Repr, DecidableEq

/-- `PatrolPattern.__init__` state (`movement.py`, lines 145-174).
`pattern_type` is the raw string, mirroring the Python string dispatch
(`"circular"`, `"racetrack"`, anything else falls to the figure-8
branch). -/
structure PatrolPattern where
  center_lat : ℚ
  center_lon : ℚ
  pattern_type : String
  radius_m : ℚ
  speed_ms : ℚ
  altitude_m : ℚ
  angle : ℚ
  deriving Repr, DecidableEq

/-- `RandomWalkPattern.__init__` state (`movement.py`, lines 232-261).
`boundary_radius_m` is optional; Python additionally treats `0.0` as
falsy in `if self.boundary_radius_m:`, which the update models. -/
structure RandomWalkPattern where
  initial_lat : ℚ
  initial_lon : ℚ
  speed_ms : ℚ
  max_deviation_deg : ℚ
  boundary_radius_m : Option ℚ
  altitude_m : ℚ
  current_heading : ℚ
  deriving Repr, DecidableEq

/-- `FormationPattern.__init__` state (`movement.py`, lines 307-329).
`leader` is the kinematic state of the referenced leader entity as read
at this tick (the Python code holds an object reference and reads
exactly the fields `lat`, `lon`, `altitude_m`, `heading_deg`,
`speed_ms`). -/
structure FormationPattern where
  leader : Kin
  offset_lat_m : ℚ
  offset_lon_m : ℚ
  offset_altitude_m : ℚ
  deriving Repr, DecidableEq

/-- `EvasivePattern.__init__` state (`movement.py`, lines 365-389). -/
structure EvasivePattern where
  base_speed_ms : ℚ
  maneuver_probability : ℚ
  max_altitude_change_m : ℚ
  max_heading_change_deg : ℚ
  in_maneuver : Bool
  maneuver_end_time : ℚ
  deriving Repr, DecidableEq

/-- Closed sum of the five movement-pattern variants. -/
inductive MovementPattern where
  | waypoint : WaypointPattern → MovementPattern
  | patrol : PatrolPattern → MovementPattern
  | randomWalk : RandomWalkPattern → MovementPattern
  | formation : FormationPattern → MovementPattern
  | evasive : EvasivePattern → MovementPattern
  deriving Repr, DecidableEq

/-- `Entity` dataclass of `src/simulation/entities.py`.  Metadata is an
opaque string map, modelled as an association list. -/
structure Entity where
  entity_id : String
  entity_type : EntityType
  lat : ℚ
  lon : ℚ
  altitude_m : ℚ
  heading_deg : ℚ
  speed_ms : ℚ
  movement_pattern : Option MovementPattern
  metadata : List (String × String)
  created_at : ℚ
  last_update : ℚ
  deriving Repr, DecidableEq

/-- Random draws consumed by one movement-pattern `update` call.
`headingChange` feeds `random.uniform(-max_deviation, max_deviation)`
(random walk) and `random.uniform(-max_heading_change, ...)` (evasive);
`maneuverDraw` the `random.random()` maneuver trigger; `maneuverDuration`
the `random.uniform(2.0, 5.0)` duration; `altitudeChange` the
`random.uniform(-max_altitude_change, ...)` draw. -/
structure MoveRand where
  headingChange : ℚ
  maneuverDraw : ℚ
  maneuverDuration : ℚ
  altitudeChange : ℚ

/-- `WaypointPattern.update`, movement tail (`movement.py`, lines
121-142): bearing to the (possibly just-advanced) target, capped move
using the distance computed before the arrival check, smoothed
altitude. -/
def waypointMove (ctx : GeoCtx) (p : WaypointPattern) (k : Kin) (dt : ℚ)
    (tlat tlon talt distance : ℚ) : WaypointPattern × Kin :=
  let bearing := ctx.bearing k.lat k.lon tlat tlon
  let distance_to_move := min (p.speed_ms * dt) distance
  let nd := ctx.destination k.lat k.lon bearing distance_to_move
  let alt_diff := talt - k.altitude_m
  let alt_change := min |alt_diff| (10 * dt) * (if alt_diff > 0 then 1 else -1)
  (p, { lat := nd.1, lon := nd.2, altitude_m := k.altitude_m + alt_change,
        heading_deg := bearing, speed_ms := p.speed_ms })

/-- `WaypointPattern.update` (`movement.py`, lines 75-142). -/
def waypointUpdate (ctx : GeoCtx) (p : WaypointPattern) (k : Kin) (dt : ℚ) :
    WaypointPattern × Kin :=
  if p.waypoints.isEmpty then
    (p, { k with speed_ms := 0 })
  else
    let t0 := p.waypoints.getD p.current_waypoint_idx (0, 0, none)
    let tlat := t0.1
    let tlon := t0.2.1
    let talt := t0.2.2.getD k.altitude_m
    let distance := ctx.dist k.lat k.lon tlat tlon
    if distance ≤ p.arrival_threshold_m then
      let idx1 := p.current_waypoint_idx + 1
      if idx1 ≥ p.waypoints.length then
        if p.loop then
          let p1 : WaypointPattern := { p with current_waypoint_idx := 0 }
          let t1 := p1.waypoints.getD 0 (0, 0, none)
          waypointMove ctx p1 k dt t1.1 t1.2.1 (t1.2.2.getD k.altitude_m) distance
        else
          ({ p with current_waypoint_idx := p.waypoints.length - 1 },
           { lat := tlat, lon := tlon, altitude_m := talt,
             heading_deg := k.heading_deg, speed_ms := 0 })
      else
        let p1 : WaypointPattern := { p with current_waypoint_idx := idx1 }
        let t1 := p1.waypoints.getD idx1 (0, 0, none)
        waypointMove ctx p1 k dt t1.1 t1.2.1 (t1.2.2.getD k.altitude_m) distance
    else
      waypointMove ctx p k dt tlat tlon talt distance

/-- `PatrolPattern.update` (`movement.py`, lines 176-229).  The
racetrack branch tests the phase quartile but both arms compute the
same projection, exactly as in the source. -/
def patrolUpdate (ctx : GeoCtx) (p : PatrolPattern) (_k : Kin) (dt : ℚ) :
    PatrolPattern × Kin :=
  let angular_velocity := p.speed_ms / p.radius_m
  if p.pattern_type = "circular" then
    let angle := p.angle + angular_velocity * dt
    let offset_lat := p.radius_m / 111000 * ctx.cos angle
    let offset_lon := p.radius_m / (111000 * ctx.cos (ctx.radians p.center_lat)) * ctx.sin angle
    ({ p with angle := angle },
     { lat := p.center_lat + offset_lat, lon := p.center_lon + offset_lon,
       altitude_m := p.altitude_m,
       heading_deg := qmod (ctx.degrees angle + 90) 360,
       speed_ms := p.speed_ms })
  else if p.pattern_type = "racetrack" then
    let period := 2 * ctx.pi * p.radius_m / p.speed_ms
    let t := qmod (p.angle * period / (2 * ctx.pi)) period
    if t < period / 4 ∨ t > 3 * period / 4 then
      let angle := p.angle + angular_velocity * dt
      let offset_lat := p.radius_m / 111000 * ctx.cos angle
      let offset_lon := p.radius_m / (111000 * ctx.cos (ctx.radians p.center_lat)) * ctx.sin angle
      ({ p with angle := angle },
       { lat := p.center_lat + offset_lat, lon := p.center_lon + offset_lon,
         altitude_m := p.altitude_m,
         heading_deg := qmod (ctx.degrees angle + 90) 360,
         speed_ms := p.speed_ms })
    else
      let angle := p.angle + angular_velocity * dt
      let offset_lat := p.radius_m / 111000 * ctx.cos angle
      let offset_lon := p.radius_m / (111000 * ctx.cos (ctx.radians p.center_lat)) * ctx.sin angle
      ({ p with angle := angle },
       { lat := p.center_lat + offset_lat, lon := p.center_lon + offset_lon,
         altitude_m := p.altitude_m,
         heading_deg := qmod (ctx.degrees angle + 90) 360,
         speed_ms := p.speed_ms })
  else
    let angle := p.angle + angular_velocity * dt
    let offset_lat := p.radius_m / 111000 * ctx.sin angle
    let offset_lon := p.radius_m / (111000 * ctx.cos (ctx.radians p.center_lat)) * ctx.sin (2 * angle)
    ({ p with angle := angle },
     { lat := p.center_lat + offset_lat, lon := p.center_lon + offset_lon,
       altitude_m := p.altitude_m,
       heading_deg := qmod (ctx.degrees angle + 90) 360,
       speed_ms := p.speed_ms })

/-- `RandomWalkPattern.update` (`movement.py`, lines 263-304). -/
def randomWalkUpdate (ctx : GeoCtx) (rnd : MoveRand) (p : RandomWalkPattern)
    (k : Kin) (dt : ℚ) : RandomWalkPattern × Kin :=
  let heading0 := qmod (p.current_heading + rnd.headingChange) 360
  let distance := p.speed_ms * dt
  let n0 := ctx.destination k.lat k.lon heading0 distance
  let boundaryActive := match p.boundary_radius_m with
    | none => false
    | some r => r ≠ 0
  let res :=
    if boundaryActive then
      let dist_from_origin := ctx.dist p.initial_lat p.initial_lon n0.1 n0.2
      if dist_from_origin > p.boundary_radius_m.getD 0 then
        let heading1 := ctx.bearing n0.1 n0.2 p.initial_lat p.initial_lon
        (heading1, ctx.destination k.lat k.lon heading1 distance)
      else
        (heading0, n0)
    else
      (heading0, n0)
  ({ p with current_heading := res.1 },
   { lat := res.2.1, lon := res.2.2, altitude_m := p.altitude_m,
     heading_deg := res.1, speed_ms := p.speed_ms })

/-- `FormationPattern.update` (`movement.py`, lines 331-362). -/
def formationUpdate (ctx : GeoCtx) (p : FormationPattern) (_k : Kin) (_dt : ℚ) :
    FormationPattern × Kin :=
  let offset_lat_deg := p.offset_lat_m / 111000
  let offset_lon_deg := p.offset_lon_m / (111000 * ctx.cos (ctx.radians p.leader.lat))
  (p, { lat := p.leader.lat + offset_lat_deg,
        lon := p.leader.lon + offset_lon_deg,
        altitude_m := p.leader.altitude_m + p.offset_altitude_m,
        heading_deg := p.leader.heading_deg,
        speed_ms := p.leader.speed_ms })

/-- `EvasivePattern.update` (`movement.py`, lines 391-450).  `now` is the
`time.time()` read inside the update. -/
def evasiveUpdate (ctx : GeoCtx) (rnd : MoveRand) (now : ℚ) (p : EvasivePattern)
    (k : Kin) (dt : ℚ) : EvasivePattern × Kin :=
  let p1 :=
    if ¬ p.in_maneuver ∧ rnd.maneuverDraw < p.maneuver_probability then
      { p with in_maneuver := true, maneuver_end_time := now + rnd.maneuverDuration }
    else p
  let hnaSpd : Bool × ℚ × ℚ × ℚ :=
    if p1.in_maneuver then
      if now < p1.maneuver_end_time then
        (true,
         qmod (k.heading_deg + rnd.headingChange) 360,
         max 0 (k.altitude_m + rnd.altitudeChange * dt),
         p1.base_speed_ms * (3 / 2))
      else
        (false, k.heading_deg, k.altitude_m, p1.base_speed_ms)
    else
      (true, k.heading_deg, k.altitude_m, p1.base_speed_ms)
  let p2 := { p1 with in_maneuver := if p1.in_maneuver ∧ ¬ (now < p1.maneuver_end_time) then false else p1.in_maneuver }
  let new_heading := hnaSpd.2.1
  let new_altitude := hnaSpd.2.2.1
  let speed := hnaSpd.2.2.2
  let distance := speed * dt
  let nd := ctx.destination k.lat k.lon new_heading distance
  (p2, { lat := nd.1, lon := nd.2, altitude_m := new_altitude,
         heading_deg := new_heading, speed_ms := speed })

/-- `MovementPattern.update` dispatch. -/
def MovementPattern.update (ctx : GeoCtx) (rnd : MoveRand) (now : ℚ)
    (p : MovementPattern) (k : Kin) (dt : ℚ) : MovementPattern × Kin :=
  match p with
  | .waypoint w => let r := waypointUpdate ctx w k dt; (.waypoint r.1, r.2)
  | .patrol w => let r := patrolUpdate ctx w k dt; (.patrol r.1, r.2)
  | .randomWalk w => let r := randomWalkUpdate ctx rnd w k dt; (.randomWalk r.1, r.2)
  | .formation w => let r := formationUpdate ctx w k dt; (.formation r.1, r.2)
  | .evasive w => let r := evasiveUpdate ctx rnd now w k dt; (.evasive r.1, r.2)

/-- The supplied kinematic state of an entity. -/
def Entity.kin (e : Entity) : Kin :=
  { lat := e.lat, lon := e.lon, altitude_m := e.altitude_m,
    heading_deg := e.heading_deg, speed_ms := e.speed_ms }

/-- `Entity.step` (`src/simulation/entities.py`, lines 74-81): when a
movement pattern is owned, apply its update through `update_position`
and `update_motion` (both of which refresh `last_update` to the current
wall clock `now`); otherwise do nothing at all. -/
def Entity.step (ctx : GeoCtx) (rnd : MoveRand) (now : ℚ) (e : Entity)
    (dt : ℚ) : Entity :=
  match e.movement_pattern with
  | none => e
  | some p =>
    let r := p.update ctx rnd now e.kin dt
    { e with lat := r.2.lat, lon := r.2.lon, altitude_m := r.2.altitude_m,
             heading_deg := r.2.heading_deg, speed_ms := r.2.speed_ms,
             movement_pattern := some r.1, last_update := now }

/-! ## Sensor layer (`src/sensors/base.py` and the four variants) -/

/-- Common sensor platform state installed by `BaseSensor.__init__`
(`src/sensors/base.py`, lines 42-79).  `health_status` and metadata are
carried for completeness. -/
structure SensorBase where
  sensor_id : String
  position_lat : ℚ
  position_lon : ℚ
  position_altitude_m : ℚ
  update_rate_hz : ℚ
  max_range_m : ℚ
  field_of_view_deg : ℚ
  last_update : ℚ
  is_active : Bool
  health_status : String
  deriving Repr, DecidableEq

/-- `BaseSensor.can_detect` (`base.py`, lines 81-109): inactive sensors
detect nothing; the range gate compares geodesic distance against
`max_range_m`; the narrow field-of-view branch is an acknowledged no-op
in the source (`if self.field_of_view_deg < 360: pass`). -/
def canDetect (ctx : GeoCtx) (s : SensorBase) (e : Entity) : Bool :=
  if ¬ s.is_active then false
  else
    let distance := ctx.dist s.position_lat s.position_lon e.lat e.lon
    if distance > s.max_range_m then false
    else true

/-- `BaseSensor.should_update` (`base.py`, lines 111-116), with the
`time.time()` read passed in as `now`. -/
def shouldUpdate (s : SensorBase) (now : ℚ) : Bool :=
  now - s.last_update ≥ 1 / s.update_rate_hz

/-- The position payload of a `SensorReading`. -/
structure ReadPos where
  lat : ℚ
  lon : ℚ
  altitude_m : ℚ
  deriving Repr, DecidableEq

/-- `SensorReading` (`base.py`, lines 22-36).  Of the free-form
diagnostic metadata dictionary only the `false_alarm` tag is modelled
(it is the only metadata field any claim mentions); it is `false` on
every reading except the radar's synthetic false alarm. -/
structure SensorReading where
  entity_id : String
  sensor_id : String
  timestamp : ℚ
  position : ReadPos
  confidence : ℚ
  meta_false_alarm : Bool
  deriving Repr, DecidableEq

/-- Clamp to `[0, 1]`: the `min(max(x, 0.0), 1.0)` idiom used by every
probability/confidence computation in the sensor files. -/
def clamp01 (x : ℚ) : ℚ := min (max x 0) 1

/-- Python `int()` on a non-negative float: truncation toward zero
(`ℤ` division of the reduced numerator by the denominator truncates
toward zero, matching `int(current_time)`). -/
def intTrunc (q : ℚ) : ℤ := q.num / (q.den : ℤ)

/-- `RadarSensor.__init__` parameters (`src/sensors/radar.py`, lines
15-61). -/
structure RadarSensor where
  base : SensorBase
  min_detectable_rcs_m2 : ℚ
  range_accuracy_m : ℚ
  angle_accuracy_deg : ℚ
  false_alarm_rate : ℚ
  deriving Repr, DecidableEq

/-- Per-entity random draws of one radar scan: `random.uniform(0.9,1.0)`
inside `_calculate_detection_probability`, the `random.random()`
detection trial, the two gaussian degree offsets produced by
`add_noise_to_coordinate`, and `random.gauss(0, 10.0)` on altitude. -/
structure RadarEntityRand where
  probFactor : ℚ
  detectDraw : ℚ
  latOff : ℚ
  lonOff : ℚ
  altNoise : ℚ

/-- Draws of the radar false-alarm branch (`radar.py`, lines 184-204):
the `random.random()` trial against `false_alarm_rate`, the two
`random.uniform(-0.01, 0.01)` position offsets, the
`random.uniform(0, 10000)` altitude and `random.uniform(0.1, 0.3)`
confidence. -/
structure RadarFalseAlarmRand where
  faDraw : ℚ
  latOff : ℚ
  lonOff : ℚ
  altitude : ℚ
  confidence : ℚ

/-- `RadarSensor._calculate_radar_cross_section` (`radar.py`, lines
63-91): fixed base RCS per entity type, reduced 20% beyond 10 km. -/
def radarRCS (ctx : GeoCtx) (s : RadarSensor) (e : Entity) : ℚ :=
  let rcs : ℚ :=
    match e.entity_type with
    | .aircraft => 10
    | .ground_vehicle => 5
    | .maritime_vessel => 100
    | .unknown_contact => 1
    | .stationary_object => 50
  let distance := ctx.dist s.base.position_lat s.base.position_lon e.lat e.lon
  if distance > 10000 then rcs * (4 / 5) else rcs

/-- `RadarSensor._calculate_detection_probability` (`radar.py`, lines
93-124), with the `random.uniform(0.9, 1.0)` draw supplied as
`probFactor`. -/
def radarProb (ctx : GeoCtx) (s : RadarSensor) (e : Entity) (probFactor : ℚ) : ℚ :=
  let distance := ctx.dist s.base.position_lat s.base.position_lon e.lat e.lon
  if distance > s.base.max_range_m then 0
  else
    let rcs := radarRCS ctx s e
    if rcs < s.min_detectable_rcs_m2 then 0
    else
      let range_factor := 1 - distance / s.base.max_range_m
      let rcs_factor := min (rcs / s.min_detectable_rcs_m2) 2 / 2
      clamp01 (range_factor * rcs_factor * probFactor)

/-- Identifier of the radar's synthetic false-alarm reading:
`f"false_alarm_{int(current_time)}"`. -/
def falseAlarmId (now : ℚ) : String := "false_alarm_" ++ toString (intTrunc now)

/-- The synthetic false-alarm reading built at `radar.py`, lines
185-203. -/
def radarFalseReading (s : RadarSensor) (now : ℚ) (fr : RadarFalseAlarmRand) :
    SensorReading :=
  { entity_id := falseAlarmId now,
    sensor_id := s.base.sensor_id,
    timestamp := now,
    position := { lat := s.base.position_lat + fr.latOff,
                  lon := s.base.position_lon + fr.lonOff,
                  altitude_m := fr.altitude },
    confidence := fr.confidence,
    meta_false_alarm := true }

/-- Loop body of `RadarSensor.detect_entities` for one entity
(`radar.py`, lines 142-181): the `can_detect` gate (a `continue` in the
source is `none` here), the Bernoulli trial against the computed
probability, and the noisy reading on success. -/
def radarScanOne (ctx : GeoCtx) (s : RadarSensor) (now : ℚ)
    (d : RadarEntityRand) (e : Entity) : Option SensorReading :=
  if ¬ canDetect ctx s.base e then none
  else
    let detection_prob := radarProb ctx s e d.probFactor
    if d.detectDraw < detection_prob then
      let distance := ctx.dist s.base.position_lat s.base.position_lon e.lat e.lon
      let range_factor := 1 - distance / s.base.max_range_m
      some { entity_id := e.entity_id,
             sensor_id := s.base.sensor_id,
             timestamp := now,
             position := { lat := e.lat + d.latOff, lon := e.lon + d.lonOff,
                           altitude_m := e.altitude_m + d.altNoise },
             confidence := clamp01 (detection_prob * range_factor),
             meta_false_alarm := false }
    else none

/-- `RadarSensor.detect_entities` (`radar.py`, lines 126-207): rate
gate, the per-entity loop, at most one synthetic false-alarm reading
appended afterwards, then `last_update` is refreshed.  Returns the
post-call sensor state together with the readings. -/
def radarDetect (ctx : GeoCtx) (s : RadarSensor) (now : ℚ)
    (er : Entity → RadarEntityRand) (fr : RadarFalseAlarmRand)
    (entities : List Entity) : RadarSensor × List SensorReading :=
  if ¬ shouldUpdate s.base now then (s, [])
  else
    let entityReadings := entities.filterMap (fun e => radarScanOne ctx s now (er e) e)
    let readings :=
      if fr.faDraw < s.false_alarm_rate then
        entityReadings ++ [radarFalseReading s now fr]
      else entityReadings
    ({ s with base := { s.base with last_update := now } }, readings)

/-- `ADSBSensor.__init__` parameters (`src/sensors/adsb.py`, lines
15-55). -/
structure ADSBSensor where
  base : SensorBase
  reception_accuracy_m : ℚ
  transponder_coverage : ℚ
  deriving Repr, DecidableEq

/-- Per-entity draws of one ADS-B scan: the `random.random()` trial in
`_has_transponder`, the coordinate-noise offsets and the
`random.gauss(0, 5.0)` altitude noise. -/
structure ADSBRand where
  transponderDraw : ℚ
  latOff : ℚ
  lonOff : ℚ
  altNoise : ℚ

/-- `ADSBSensor._has_transponder` (`adsb.py`, lines 57-72): non-aircraft
entities never have one; aircraft pass a Bernoulli trial against
`transponder_coverage`. -/
def hasTransponder (s : ADSBSensor) (e : Entity) (draw : ℚ) : Bool :=
  if e.entity_type ≠ .aircraft then false
  else draw < s.transponder_coverage

/-- Loop body of `ADSBSensor.detect_entities` for one entity
(`adsb.py`, lines 90-132): the `can_detect` gate, the transponder
check, and the near-truth reading on success. -/
def adsbScanOne (ctx : GeoCtx) (s : ADSBSensor) (now : ℚ)
    (d : ADSBRand) (e : Entity) : Option SensorReading :=
  if ¬ canDetect ctx s.base e then none
  else if ¬ hasTransponder s e d.transponderDraw then none
  else
    let distance := ctx.dist s.base.position_lat s.base.position_lon e.lat e.lon
    let range_factor := 1 - distance / s.base.max_range_m * (1 / 10)
    some { entity_id := e.entity_id,
           sensor_id := s.base.sensor_id,
           timestamp := now,
           position := { lat := e.lat + d.latOff, lon := e.lon + d.lonOff,
                         altitude_m := e.altitude_m + d.altNoise },
           confidence := min (max range_factor (85 / 100)) 1,
           meta_false_alarm := false }

/-- `ADSBSensor.detect_entities` (`adsb.py`, lines 74-135). -/
def adsbDetect (ctx : GeoCtx) (s : ADSBSensor) (now : ℚ)
    (er : Entity → ADSBRand) (entities : List Entity) :
    ADSBSensor × List SensorReading :=
  if ¬ shouldUpdate s.base now then (s, [])
  else
    let readings := entities.filterMap (fun e => adsbScanOne ctx s now (er e) e)
    ({ s with base := { s.base with last_update := now } }, readings)

/-- `CameraSensor.__init__` parameters (`src/sensors/camera.py`, lines
15-58). -/
structure CameraSensor where
  base : SensorBase
  detection_accuracy_m : ℚ
  weather_visibility_factor : ℚ
  day_night_mode : String
  deriving Repr, DecidableEq

/-- Per-entity draws of one camera scan. -/
structure CameraRand where
  detectDraw : ℚ
  latOff : ℚ
  lonOff : ℚ
  altNoise : ℚ

/-- `CameraSensor._calculate_detection_probability` (`camera.py`, lines
60-103). -/
def cameraProb (ctx : GeoCtx) (s : CameraSensor) (e : Entity) : ℚ :=
  let distance := ctx.dist s.base.position_lat s.base.position_lon e.lat e.lon
  if distance > s.base.max_range_m then 0
  else
    let range_factor := 1 - distance / s.base.max_range_m
    let type_factor : ℚ :=
      match e.entity_type with
      | .aircraft => 9 / 10
      | .ground_vehicle => 7 / 10
      | .maritime_vessel => 4 / 5
      | .unknown_contact => 1 / 2
      | .stationary_object => 3 / 5
    let weather_factor := s.weather_visibility_factor
    let day_night_factor : ℚ := if s.day_night_mode = "night" then 4 / 5 else 1
    clamp01 (range_factor * type_factor * weather_factor * day_night_factor)

/-- Loop body of `CameraSensor.detect_entities` for one entity
(`camera.py`, lines 121-161). -/
def cameraScanOne (ctx : GeoCtx) (s : CameraSensor) (now : ℚ)
    (d : CameraRand) (e : Entity) : Option SensorReading :=
  if ¬ canDetect ctx s.base e then none
  else
    let detection_prob := cameraProb ctx s e
    if d.detectDraw < detection_prob then
      let distance := ctx.dist s.base.position_lat s.base.position_lon e.lat e.lon
      let range_factor := 1 - distance / s.base.max_range_m * (3 / 10)
      some { entity_id := e.entity_id,
             sensor_id := s.base.sensor_id,
             timestamp := now,
             position := { lat := e.lat + d.latOff, lon := e.lon + d.lonOff,
                           altitude_m := e.altitude_m + d.altNoise },
             confidence := clamp01 (detection_prob * range_factor),
             meta_false_alarm := false }
    else none

/-- `CameraSensor.detect_entities` (`camera.py`, lines 105-164). -/
def cameraDetect (ctx : GeoCtx) (s : CameraSensor) (now : ℚ)
    (er : Entity → CameraRand) (entities : List Entity) :
    CameraSensor × List SensorReading :=
  if ¬ shouldUpdate s.base now then (s, [])
  else
    let readings := entities.filterMap (fun e => cameraScanOne ctx s now (er e) e)
    ({ s with base := { s.base with last_update := now } }, readings)

/-- `AcousticSensor.__init__` parameters (`src/sensors/acoustic.py`,
lines 15-58). -/
structure AcousticSensor where
  base : SensorBase
  detection_accuracy_m : ℚ
  ambient_noise_level : ℚ
  wind_impact_factor : ℚ
  deriving Repr, DecidableEq

/-- Per-entity draws of one acoustic scan. -/
structure AcousticRand where
  detectDraw : ℚ
  latOff : ℚ
  lonOff : ℚ
  altNoise : ℚ

/-- `AcousticSensor._calculate_sound_level` (`acoustic.py`, lines
60-85). -/
def soundLevel (e : Entity) : ℚ :=
  let base : ℚ :=
    match e.entity_type with
    | .aircraft => 4 / 5
    | .ground_vehicle => 3 / 5
    | .maritime_vessel => 1 / 2
    | .unknown_contact => 2 / 5
    | .stationary_object => 1 / 10
  let speed_factor := min (e.speed_ms / 100) (3 / 2)
  min (base * speed_factor) 1

/-- `AcousticSensor._calculate_detection_probability` (`acoustic.py`,
lines 87-124).  (`1 / wind_impact_factor` uses total `ℚ` division; the
Python code would raise on a zero wind factor, a configuration no claim
exercises.) -/
def acousticProb (ctx : GeoCtx) (s : AcousticSensor) (e : Entity) : ℚ :=
  let distance := ctx.dist s.base.position_lat s.base.position_lon e.lat e.lon
  if distance > s.base.max_range_m then 0
  else
    let sound := soundLevel e
    let range_factor := 1 / (1 + (distance / s.base.max_range_m) ^ 2)
    let snr := sound / max s.ambient_noise_level (1 / 10)
    let snr_factor := min (snr / 2) 1
    let wind_factor := 1 / s.wind_impact_factor
    clamp01 (range_factor * snr_factor * wind_factor)

/-- Loop body of `AcousticSensor.detect_entities` for one entity
(`acoustic.py`, lines 142-185). -/
def acousticScanOne (ctx : GeoCtx) (s : AcousticSensor) (now : ℚ)
    (d : AcousticRand) (e : Entity) : Option SensorReading :=
  if ¬ canDetect ctx s.base e then none
  else
    let detection_prob := acousticProb ctx s e
    if d.detectDraw < detection_prob then
      let snr := soundLevel e / max s.ambient_noise_level (1 / 10)
      let snr_factor := min (snr / 2) 1
      some { entity_id := e.entity_id,
             sensor_id := s.base.sensor_id,
             timestamp := now,
             position := { lat := e.lat + d.latOff, lon := e.lon + d.lonOff,
                           altitude_m := e.altitude_m + d.altNoise },
             confidence := clamp01 (detection_prob * snr_factor),
             meta_false_alarm := false }
    else none

/-- `AcousticSensor.detect_entities` (`acoustic.py`, lines 126-188). -/
def acousticDetect (ctx : GeoCtx) (s : AcousticSensor) (now : ℚ)
    (er : Entity → AcousticRand) (entities : List Entity) :
    AcousticSensor × List SensorReading :=
  if ¬ shouldUpdate s.base now then (s, [])
  else
    let readings := entities.filterMap (fun e => acousticScanOne ctx s now (er e) e)
    ({ s with base := { s.base with last_update := now } }, readings)

/-! ## Simulation engine (`src/simulation/engine.py`) -/

/-- A sensor as the engine sees it through the `BaseSensor` interface:
an identifier, the `is_active` flag the engine consults before calling,
and the `detect_entities` capability.  A Python exception raised inside
`detect_entities` is modelled as `Except.error`. -/
structure EngineSensor where
  sensor_id : String
  is_active : Bool
  detect : List Entity → Except String (List SensorReading)

/-- Engine-owned collections and optional collaborators
(`SimulationEngine.__init__`).  The publisher and metrics collaborators
are out of scope; only their presence matters to the step algorithm. -/
structure EngineState where
  sensors : List EngineSensor
  entities : List Entity
  metricsPresent : Bool
  publisherPresent : Bool

/-- `SimulationEngine.get_entity` (`engine.py`, lines 86-91): first
entity with the given id, in insertion order. -/
def getEntity (entities : List Entity) (eid : String) : Option Entity :=
  entities.find? (fun e => e.entity_id = eid)

/-- What the engine hands to the publisher in one tick (`engine.py`,
lines 126-134): one batch call when more than one reading was
collected, otherwise individual publishes. -/
inductive PublishEvent where
  | batch : List (Entity × SensorReading × String) → PublishEvent
  | single : Entity × SensorReading × String → PublishEvent

/-- The sensor loop of `SimulationEngine.step` (`engine.py`, lines
106-124): skip inactive sensors; on a successful `detect_entities`
resolve each reading back to an entity and collect
`(entity, reading, sensor_id)` triples; on an exception record an error
for that sensor (when metrics is present) and continue with the
remaining sensors.  Returns the collected triples and the
`record_error` log. -/
def sensorPass (metricsPresent : Bool) (entities : List Entity) :
    List EngineSensor → List (Entity × SensorReading × String) × List String
  | [] => ([], [])
  | s :: rest =>
    let tail := sensorPass metricsPresent entities rest
    if ¬ s.is_active then tail
    else
      match s.detect entities with
      | .ok readings =>
        let triples := readings.filterMap (fun r =>
          (getEntity entities r.entity_id).map (fun e => (e, r, s.sensor_id)))
        (triples ++ tail.1, tail.2)
      | .error _ =>
        (tail.1, (if metricsPresent then [s.sensor_id] else []) ++ tail.2)

/-- Observable outcome of one `SimulationEngine.step` call. -/
structure StepResult where
  state : EngineState
  readings : List (Entity × SensorReading × String)
  errorsRecorded : List String
  published : List PublishEvent
  entityCounts : Option (ℕ × ℕ)

/-- `SimulationEngine.step` (`engine.py`, lines 93-140): advance every
entity by its movement pattern, run the sensor loop on the post-step
entities, hand the readings to the publisher (batch iff more than one),
and report entity counts to metrics.  `erand` supplies the random draws
consumed by each entity's pattern this tick. -/
def engineStep (ctx : GeoCtx) (erand : Entity → MoveRand) (now : ℚ)
    (st : EngineState) (dt : ℚ) : StepResult :=
  let entities1 := st.entities.map (fun e => e.step ctx (erand e) now dt)
  let pp := sensorPass st.metricsPresent entities1 st.sensors
  let published :=
    if st.publisherPresent then
      if pp.1.length > 1 then [PublishEvent.batch pp.1]
      else pp.1.map PublishEvent.single
    else []
  { state := { st with entities := entities1 },
    readings := pp.1,
    errorsRecorded := pp.2,
    published := published,
    entityCounts :=
      if st.metricsPresent then some (entities1.length, entities1.length) else none }

/-! ## Concrete instances used by witnesses and counterexamples -/

/-- A concrete geographic backend for evaluating the model at specific
inputs: taxicab distance scaled by 111 km/degree, northward destination
projection.  It satisfies the facts about real geodesic geometry that
the theorems hypothesize (distance is non-negative and vanishes on
identical points; a zero-distance destination is the start point), and
it agrees with the real backend on the qualitative facts each
counterexample relies on. -/
def flatCtx : GeoCtx :=
  { dist := fun lat1 lon1 lat2 lon2 => (|lat1 - lat2| + |lon1 - lon2|) * 111000,
    bearing := fun _ _ _ _ => 0,
    destination := fun lat lon _ d => (lat + d / 111000, lon),
    sin := fun _ => 0,
    cos := fun _ => 1,
    pi := 355 / 113 }

/-- A sample operational sensor platform at the origin. -/
def sampleBase : SensorBase :=
  { sensor_id := "sensor-1", position_lat := 0, position_lon := 0,
    position_altitude_m := 0, update_rate_hz := 1, max_range_m := 50000,
    field_of_view_deg := 360, last_update := 0, is_active := true,
    health_status := "operational" }

/-- The `sampleBase` platform switched inactive. -/
def sampleBaseOff : SensorBase := { sampleBase with is_active := false }

/-- A radar with the constructor defaults of `radar.py`. -/
def sampleRadar : RadarSensor :=
  { base := sampleBase, min_detectable_rcs_m2 := 1 / 10,
    range_accuracy_m := 50, angle_accuracy_deg := 1 / 2,
    false_alarm_rate := 1 / 100 }

/-- The same radar switched inactive. -/
def sampleRadarOff : RadarSensor := { sampleRadar with base := sampleBaseOff }

/-- An ADS-B receiver with the constructor defaults of `adsb.py`. -/
def sampleADSB : ADSBSensor :=
  { base := { sampleBase with max_range_m := 200000 },
    reception_accuracy_m := 10, transponder_coverage := 19 / 20 }

/-- A camera with the constructor defaults of `camera.py`. -/
def sampleCamera : CameraSensor :=
  { base := { sampleBase with
              update_rate_hz := 5
              max_range_m := 15000
              field_of_view_deg := 60 },
    detection_accuracy_m := 20, weather_visibility_factor := 1,
    day_night_mode := "auto" }

/-- An acoustic sensor with the constructor defaults of `acoustic.py`. -/
def sampleAcoustic : AcousticSensor :=
  { base := { sampleBase with update_rate_hz := 10, max_range_m := 5000 },
    detection_accuracy_m := 100, ambient_noise_level := 1 / 2,
    wind_impact_factor := 1 }

/-- Neutral radar per-entity draws. -/
def radarRand0 : RadarEntityRand :=
  { probFactor := 19 / 20, detectDraw := 0, latOff := 0, lonOff := 0, altNoise := 0 }

/-- False-alarm draws whose trial succeeds (`faDraw = 0`). -/
def faRandHit : RadarFalseAlarmRand :=
  { faDraw := 0, latOff := 1 / 200, lonOff := -1 / 200, altitude := 100,
    confidence := 1 / 5 }

/-- Neutral ADS-B per-entity draws (transponder trial succeeds). -/
def adsbRand0 : ADSBRand :=
  { transponderDraw := 0, latOff := 0, lonOff := 0, altNoise := 0 }

/-- Neutral camera per-entity draws. -/
def cameraRand0 : CameraRand :=
  { detectDraw := 0, latOff := 0, lonOff := 0, altNoise := 0 }

/-- Neutral acoustic per-entity draws. -/
def acousticRand0 : AcousticRand :=
  { detectDraw := 0, latOff := 0, lonOff := 0, altNoise := 0 }

/-- Neutral movement draws. -/
def moveRand0 : MoveRand :=
  { headingChange := 0, maneuverDraw := 1, maneuverDuration := 3, altitudeChange := 0 }

/-- A stationary sample entity near the origin sensor. -/
def sampleEntity : Entity :=
  { entity_id := "contact-7", entity_type := .stationary_object,
    lat := 1 / 100, lon := 0, altitude_m := 0, heading_deg := 0, speed_ms := 0,
    movement_pattern := none, metadata := [], created_at := 5, last_update := 5 }

/-! ## Shared lemmas about the sensor gates -/

/-- An inactive sensor fails `can_detect` for every entity. -/
lemma canDetect_inactive (ctx : GeoCtx) (s : SensorBase) (e : Entity)
    (h : s.is_active = false) : canDetect ctx s e = false := by
  simp [canDetect, h]

/-- `can_detect` passing means the entity is within `max_range_m`. -/
lemma canDetect_range_le (ctx : GeoCtx) (s : SensorBase) (e : Entity)
    (h : canDetect ctx s e = true) :
    ¬ ctx.dist s.position_lat s.position_lon e.lat e.lon > s.max_range_m := by
  intro hgt
  simp [canDetect, hgt] at h

/-- A produced per-entity radar reading carries that entity's id and
required `can_detect` to pass. -/
lemma radarScanOne_some {ctx : GeoCtx} {s : RadarSensor} {now : ℚ}
    {d : RadarEntityRand} {e : Entity} {rd : SensorReading}
    (h : radarScanOne ctx s now d e = some rd) :
    rd.entity_id = e.entity_id ∧ canDetect ctx s.base e = true := by
  unfold radarScanOne at h
  dsimp only at h
  split at h
  · exact Option.noConfusion h
  · rename_i hc
    split at h
    · cases h
      exact ⟨rfl, by simpa using hc⟩
    · exact Option.noConfusion h

/-- A produced ADS-B reading carries that entity's id, required
`can_detect` to pass and the transponder check to succeed. -/
lemma adsbScanOne_some {ctx : GeoCtx} {s : ADSBSensor} {now : ℚ}
    {d : ADSBRand} {e : Entity} {rd : SensorReading}
    (h : adsbScanOne ctx s now d e = some rd) :
    rd.entity_id = e.entity_id ∧ canDetect ctx s.base e = true ∧
      hasTransponder s e d.transponderDraw = true := by
  unfold adsbScanOne at h
  dsimp only at h
  split at h
  · exact Option.noConfusion h
  · rename_i hc
    split at h
    · exact Option.noConfusion h
    · rename_i ht
      cases h
      exact ⟨rfl, by simpa using hc, by simpa using ht⟩

/-- A produced camera reading carries that entity's id and required
`can_detect` to pass. -/
lemma cameraScanOne_some {ctx : GeoCtx} {s : CameraSensor} {now : ℚ}
    {d : CameraRand} {e : Entity} {rd : SensorReading}
    (h : cameraScanOne ctx s now d e = some rd) :
    rd.entity_id = e.entity_id ∧ canDetect ctx s.base e = true := by
  unfold cameraScanOne at h
  dsimp only at h
  split at h
  · exact Option.noConfusion h
  · rename_i hc
    split at h
    · cases h
      exact ⟨rfl, by simpa using hc⟩
    · exact Option.noConfusion h

/-- A produced acoustic reading carries that entity's id and required
`can_detect` to pass. -/
lemma acousticScanOne_some {ctx : GeoCtx} {s : AcousticSensor} {now : ℚ}
    {d : AcousticRand} {e : Entity} {rd : SensorReading}
    (h : acousticScanOne ctx s now d e = some rd) :
    rd.entity_id = e.entity_id ∧ canDetect ctx s.base e = true := by
  unfold acousticScanOne at h
  dsimp only at h
  split at h
  · exact Option.noConfusion h
  · rename_i hc
    split at h
    · cases h
      exact ⟨rfl, by simpa using hc⟩
    · exact Option.noConfusion h

/-- Gated detect call: when the rate gate fails, every sensor variant
returns its state untouched together with `[]`. -/
lemma radarDetect_skip {ctx : GeoCtx} {s : RadarSensor} {now : ℚ}
    {er : Entity → RadarEntityRand} {fr : RadarFalseAlarmRand}
    {entities : List Entity} (hs : shouldUpdate s.base now = false) :
    radarDetect ctx s now er fr entities = (s, []) := by
  simp [radarDetect, hs]

/-- Rate-gate failure for ADS-B. -/
lemma adsbDetect_skip {ctx : GeoCtx} {s : ADSBSensor} {now : ℚ}
    {er : Entity → ADSBRand} {entities : List Entity}
    (hs : shouldUpdate s.base now = false) :
    adsbDetect ctx s now er entities = (s, []) := by
  simp [adsbDetect, hs]

/-- Rate-gate failure for the camera. -/
lemma cameraDetect_skip {ctx : GeoCtx} {s : CameraSensor} {now : ℚ}
    {er : Entity → CameraRand} {entities : List Entity}
    (hs : shouldUpdate s.base now = false) :
    cameraDetect ctx s now er entities = (s, []) := by
  simp [cameraDetect, hs]

/-- Rate-gate failure for the acoustic sensor. -/
lemma acousticDetect_skip {ctx : GeoCtx} {s : AcousticSensor} {now : ℚ}
    {er : Entity → AcousticRand} {entities : List Entity}
    (hs : shouldUpdate s.base now = false) :
    acousticDetect ctx s now er entities = (s, []) := by
  simp [acousticDetect, hs]

/-- A radar scan that runs: readings are the per-entity ones, plus the
false alarm when its trial succeeds; `last_update` becomes `now`. -/
lemma radarDetect_run {ctx : GeoCtx} {s : RadarSensor} {now : ℚ}
    {er : Entity → RadarEntityRand} {fr : RadarFalseAlarmRand}
    {entities : List Entity} (hs : shouldUpdate s.base now = true) :
    radarDetect ctx s now er fr entities =
      ({ s with base := { s.base with last_update := now } },
       if fr.faDraw < s.false_alarm_rate then
         entities.filterMap (fun e => radarScanOne ctx s now (er e) e)
           ++ [radarFalseReading s now fr]
       else entities.filterMap (fun e => radarScanOne ctx s now (er e) e)) := by
  simp [radarDetect, hs]

/-- An ADS-B scan that runs. -/
lemma adsbDetect_run {ctx : GeoCtx} {s : ADSBSensor} {now : ℚ}
    {er : Entity → ADSBRand} {entities : List Entity}
    (hs : shouldUpdate s.base now = true) :
    adsbDetect ctx s now er entities =
      ({ s with base := { s.base with last_update := now } },
       entities.filterMap (fun e => adsbScanOne ctx s now (er e) e)) := by
  simp [adsbDetect, hs]

/-- A camera scan that runs. -/
lemma cameraDetect_run {ctx : GeoCtx} {s : CameraSensor} {now : ℚ}
    {er : Entity → CameraRand} {entities : List Entity}
    (hs : shouldUpdate s.base now = true) :
    cameraDetect ctx s now er entities =
      ({ s with base := { s.base with last_update := now } },
       entities.filterMap (fun e => cameraScanOne ctx s now (er e) e)) := by
  simp [cameraDetect, hs]

/-- An acoustic scan that runs. -/
lemma acousticDetect_run {ctx : GeoCtx} {s : AcousticSensor} {now : ℚ}
    {er : Entity → AcousticRand} {entities : List Entity}
    (hs : shouldUpdate s.base now = true) :
    acousticDetect ctx s now er entities =
      ({ s with base := { s.base with last_update := now } },
       entities.filterMap (fun e => acousticScanOne ctx s now (er e) e)) := by
  simp [acousticDetect, hs]

/-! ## Claim theorems -/

/-- C10: `Entity.step` with no movement pattern leaves the entity
entirely unchanged (all kinematic fields, metadata, and in particular
`last_update`, since no state mutation occurs). -/
theorem entity_step_no_pattern (ctx : GeoCtx) (rnd : MoveRand) (now : ℚ)
    (e : Entity) (dt : ℚ) (h : e.movement_pattern = none) :
    e.step ctx rnd now dt = e := by
  simp [Entity.step, h]

/-- Witness for C10: a concrete patternless entity is returned untouched
by `step`. -/
theorem entity_step_no_pattern_witness :
    sampleEntity.movement_pattern = none
    ∧ sampleEntity.step flatCtx moveRand0 99 1 = sampleEntity :=
  ⟨rfl, entity_step_no_pattern flatCtx moveRand0 99 sampleEntity 1 rfl⟩

/-- C1 (amended): an inactive ADS-B, camera or acoustic sensor returns
the empty reading list for every entity list and every random outcome;
an inactive radar returns no reading for any entity, but its synthetic
false-alarm branch is not gated by `is_active`: when the rate gate
passes and the false-alarm trial succeeds it still emits the single
false-alarm reading. -/
theorem detect_inactive_amended
    (ctx : GeoCtx) (now : ℚ) (r : RadarSensor) (a : ADSBSensor)
    (c : CameraSensor) (ac : AcousticSensor)
    (er : Entity → RadarEntityRand) (fr : RadarFalseAlarmRand)
    (ea : Entity → ADSBRand) (ec : Entity → CameraRand)
    (eac : Entity → AcousticRand)
    (es1 es2 es3 es4 : List Entity)
    (hr : r.base.is_active = false) (ha : a.base.is_active = false)
    (hc : c.base.is_active = false) (hac : ac.base.is_active = false) :
    (adsbDetect ctx a now ea es2).2 = []
    ∧ (cameraDetect ctx c now ec es3).2 = []
    ∧ (acousticDetect ctx ac now eac es4).2 = []
    ∧ (radarDetect ctx r now er fr es1).2 =
        (if shouldUpdate r.base now ∧ fr.faDraw < r.false_alarm_rate
         then [radarFalseReading r now fr] else []) := by
  refine ⟨?_, ?_, ?_, ?_⟩
  · by_cases hs : shouldUpdate a.base now = true
    · rw [adsbDetect_run hs]
      exact List.filterMap_eq_nil_iff.mpr fun e _ => by
        simp [adsbScanOne, canDetect_inactive ctx a.base e ha]
    · rw [adsbDetect_skip (Bool.eq_false_iff.mpr hs)]
  · by_cases hs : shouldUpdate c.base now = true
    · rw [cameraDetect_run hs]
      exact List.filterMap_eq_nil_iff.mpr fun e _ => by
        simp [cameraScanOne, canDetect_inactive ctx c.base e hc]
    · rw [cameraDetect_skip (Bool.eq_false_iff.mpr hs)]
  · by_cases hs : shouldUpdate ac.base now = true
    · rw [acousticDetect_run hs]
      exact List.filterMap_eq_nil_iff.mpr fun e _ => by
        simp [acousticScanOne, canDetect_inactive ctx ac.base e hac]
    · rw [acousticDetect_skip (Bool.eq_false_iff.mpr hs)]
  · by_cases hs : shouldUpdate r.base now = true
    · rw [radarDetect_run hs]
      have hnil : es1.filterMap (fun e => radarScanOne ctx r now (er e) e) = [] :=
        List.filterMap_eq_nil_iff.mpr fun e _ => by
          simp [radarScanOne, canDetect_inactive ctx r.base e hr]
      rw [hnil]
      by_cases hfa : fr.faDraw < r.false_alarm_rate
      · simp [hs, hfa]
      · simp [hs, hfa]
    · have hs' : shouldUpdate r.base now = false := Bool.eq_false_iff.mpr hs
      rw [radarDetect_skip hs']
      simp [hs']

/-- Witness for C1's amended theorem: evaluated at concrete inactive
sensors (rate gate open, false-alarm trial succeeding), the three
entity-only sensors return `[]` while the radar returns exactly its
false-alarm reading. -/
theorem detect_inactive_amended_witness :
    (adsbDetect flatCtx { sampleADSB with base := { sampleADSB.base with is_active := false } }
        10 (fun _ => adsbRand0) [sampleEntity]).2 = []
    ∧ (cameraDetect flatCtx { sampleCamera with base := { sampleCamera.base with is_active := false } }
        10 (fun _ => cameraRand0) [sampleEntity]).2 = []
    ∧ (acousticDetect flatCtx { sampleAcoustic with base := { sampleAcoustic.base with is_active := false } }
        10 (fun _ => acousticRand0) [sampleEntity]).2 = []
    ∧ (radarDetect flatCtx sampleRadarOff 10 (fun _ => radarRand0) faRandHit
        [sampleEntity]).2 =
      (if shouldUpdate sampleRadarOff.base 10 ∧ faRandHit.faDraw < sampleRadarOff.false_alarm_rate
       then [radarFalseReading sampleRadarOff 10 faRandHit] else []) :=
  detect_inactive_amended flatCtx 10 sampleRadarOff
    { sampleADSB with base := { sampleADSB.base with is_active := false } }
    { sampleCamera with base := { sampleCamera.base with is_active := false } }
    { sampleAcoustic with base := { sampleAcoustic.base with is_active := false } }
    (fun _ => radarRand0) faRandHit (fun _ => adsbRand0) (fun _ => cameraRand0)
    (fun _ => acousticRand0) [sampleEntity] [sampleEntity] [sampleEntity] [sampleEntity]
    rfl rfl rfl rfl

/-- Counterexample to C1 as stated: a concrete inactive radar whose rate
gate is open and whose false-alarm trial succeeds returns a non-empty
reading list (namely the synthetic false alarm), so "is_active = false
implies detect_entities returns the empty list" fails for the radar
variant. -/
theorem radar_inactive_nonempty_cex :
    sampleRadarOff.base.is_active = false
    ∧ ((radarDetect flatCtx sampleRadarOff 10 (fun _ => radarRand0) faRandHit []).2).length = 1 := by
  refine ⟨rfl, ?_⟩
  rw [radarDetect_run (by norm_num [shouldUpdate, sampleRadarOff, sampleBaseOff, sampleBase])]
  rw [if_pos (by norm_num [faRandHit, sampleRadarOff, sampleRadar])]
  simp

/-- C3: a `detect_entities` call made while the elapsed time since the
sensor's `last_update` is strictly below `1/update_rate_hz` returns the
empty list and leaves the sensor state (in particular `last_update`)
unchanged, for all four variants; and `should_update` holds exactly
when the elapsed time is at least `1/update_rate_hz`.  Instantiating
the sensor argument with the state returned by a first call (whose
`last_update` is the first call's clock reading, by the `..._run`
lemmas above) gives precisely the two-call reading of the claim. -/
theorem rate_gate
    (ctx : GeoCtx) (now : ℚ)
    (r : RadarSensor) (a : ADSBSensor) (c : CameraSensor) (ac : AcousticSensor)
    (er : Entity → RadarEntityRand) (fr : RadarFalseAlarmRand)
    (ea : Entity → ADSBRand) (ec : Entity → CameraRand) (eac : Entity → AcousticRand)
    (es1 es2 es3 es4 : List Entity) (sb : SensorBase) (t : ℚ)
    (hr : now - r.base.last_update < 1 / r.base.update_rate_hz)
    (ha : now - a.base.last_update < 1 / a.base.update_rate_hz)
    (hc : now - c.base.last_update < 1 / c.base.update_rate_hz)
    (hac : now - ac.base.last_update < 1 / ac.base.update_rate_hz) :
    radarDetect ctx r now er fr es1 = (r, [])
    ∧ adsbDetect ctx a now ea es2 = (a, [])
    ∧ cameraDetect ctx c now ec es3 = (c, [])
    ∧ acousticDetect ctx ac now eac es4 = (ac, [])
    ∧ (shouldUpdate sb t = true ↔ t - sb.last_update ≥ 1 / sb.update_rate_hz) := by
  have hb : ∀ s : SensorBase, now - s.last_update < 1 / s.update_rate_hz →
      shouldUpdate s now = false := by
    intro s h
    simpa [shouldUpdate] using not_le.mpr h
  refine ⟨radarDetect_skip (hb _ hr), adsbDetect_skip (hb _ ha),
    cameraDetect_skip (hb _ hc), acousticDetect_skip (hb _ hac), ?_⟩
  simp [shouldUpdate, ge_iff_le]

/-- Witness for C3: at `now = 1/20` after a scan at time 0, all four
sample sensors (rates 1, 1, 5 and 10 Hz) are inside their minimum
intervals and return `(unchanged sensor, [])`. -/
theorem rate_gate_witness :
    radarDetect flatCtx sampleRadar (1 / 20) (fun _ => radarRand0) faRandHit [sampleEntity]
      = (sampleRadar, [])
    ∧ adsbDetect flatCtx sampleADSB (1 / 20) (fun _ => adsbRand0) [sampleEntity]
      = (sampleADSB, [])
    ∧ cameraDetect flatCtx sampleCamera (1 / 20) (fun _ => cameraRand0) [sampleEntity]
      = (sampleCamera, [])
    ∧ acousticDetect flatCtx sampleAcoustic (1 / 20) (fun _ => acousticRand0) [sampleEntity]
      = (sampleAcoustic, [])
    ∧ (shouldUpdate sampleBase 10 = true ↔ 10 - sampleBase.last_update ≥ 1 / sampleBase.update_rate_hz) :=
  rate_gate flatCtx (1 / 20) sampleRadar sampleADSB sampleCamera sampleAcoustic
    (fun _ => radarRand0) faRandHit (fun _ => adsbRand0) (fun _ => cameraRand0)
    (fun _ => acousticRand0) [sampleEntity] [sampleEntity] [sampleEntity] [sampleEntity]
    sampleBase 10
    (by norm_num [sampleRadar, sampleBase])
    (by norm_num [sampleADSB, sampleBase])
    (by norm_num [sampleCamera, sampleBase])
    (by norm_num [sampleAcoustic, sampleBase])

/-- C4: the ADS-B sensor never returns a reading for a non-aircraft
entity, for every transponder-coverage value and every outcome of the
random trials (the transponder check rejects non-aircraft before the
Bernoulli trial is even consulted).  The uniqueness hypothesis is the
data model's "entity ids are unique" invariant. -/
theorem adsb_exclusivity (ctx : GeoCtx) (a : ADSBSensor) (now : ℚ)
    (ea : Entity → ADSBRand) (entities : List Entity) (e : Entity)
    (hne : e.entity_type ≠ EntityType.aircraft)
    (huniq : ∀ e' ∈ entities, e'.entity_id = e.entity_id → e' = e) :
    ∀ rd ∈ (adsbDetect ctx a now ea entities).2, rd.entity_id ≠ e.entity_id := by
  intro rd hrd heq
  by_cases hs : shouldUpdate a.base now = true
  · rw [adsbDetect_run hs] at hrd
    obtain ⟨e', he', hsome⟩ := List.mem_filterMap.mp hrd
    obtain ⟨hid, _, ht⟩ := adsbScanOne_some hsome
    have he2 : e' = e := huniq e' he' (hid.symm.trans heq)
    rw [he2] at ht
    simp [hasTransponder, hne] at ht
  · rw [adsbDetect_skip (Bool.eq_false_iff.mpr hs)] at hrd
    simp at hrd

/-- A ground vehicle sitting right next to the ADS-B receiver. -/
def groundVehicle : Entity :=
  { entity_id := "truck-1", entity_type := .ground_vehicle,
    lat := 1 / 1000, lon := 0, altitude_m := 0, heading_deg := 0, speed_ms := 10,
    movement_pattern := none, metadata := [], created_at := 0, last_update := 0 }

/-- Witness for C4: a ground vehicle well inside ADS-B range, with the
transponder trial drawing 0 (success if it were consulted), yields an
empty reading list — no reading carries its id. -/
theorem adsb_exclusivity_witness :
    (adsbDetect flatCtx sampleADSB 10 (fun _ => adsbRand0) [groundVehicle]).2 = [] := by
  have h := adsb_exclusivity flatCtx sampleADSB 10 (fun _ => adsbRand0) [groundVehicle]
    groundVehicle (by decide)
    (fun e' he' _ => by simpa using he')
  rcases hlist : (adsbDetect flatCtx sampleADSB 10 (fun _ => adsbRand0) [groundVehicle]).2
    with _ | ⟨rd, rest⟩
  · rfl
  · exfalso
    have hrd : rd ∈ (adsbDetect flatCtx sampleADSB 10 (fun _ => adsbRand0) [groundVehicle]).2 := by
      rw [hlist]
      exact List.mem_cons_self _ _
    have hne := h rd hrd
    have hsrc := hrd
    rw [adsbDetect_run (by norm_num [shouldUpdate, sampleADSB, sampleBase])] at hsrc
    obtain ⟨e', he', hsome⟩ := List.mem_filterMap.mp hsrc
    obtain ⟨hid, -, -⟩ := adsbScanOne_some hsome
    exact hne (hid.trans (by rw [List.mem_singleton.mp he']))

/-- C2 (amended): an entity farther than `max_range_m` from the sensor
is never the source of a reading, across all four variants; for the
radar this guarantee additionally requires that the entity's id is not
the synthetic false-alarm identifier `false_alarm_⌊now⌋`, because the
false-alarm reading is not derived from any entity and carries exactly
that id.  The `hfar` hypotheses state the out-of-range premise for
every list entry carrying the entity's id (the data model's id
uniqueness makes this the claim's own premise). -/
theorem range_gate_amended
    (ctx : GeoCtx) (now : ℚ)
    (r : RadarSensor) (a : ADSBSensor) (c : CameraSensor) (ac : AcousticSensor)
    (er : Entity → RadarEntityRand) (fr : RadarFalseAlarmRand)
    (ea : Entity → ADSBRand) (ec : Entity → CameraRand) (eac : Entity → AcousticRand)
    (es : List Entity) (e : Entity)
    (hfar_r : ∀ e' ∈ es, e'.entity_id = e.entity_id →
        ctx.dist r.base.position_lat r.base.position_lon e'.lat e'.lon > r.base.max_range_m)
    (hfar_a : ∀ e' ∈ es, e'.entity_id = e.entity_id →
        ctx.dist a.base.position_lat a.base.position_lon e'.lat e'.lon > a.base.max_range_m)
    (hfar_c : ∀ e' ∈ es, e'.entity_id = e.entity_id →
        ctx.dist c.base.position_lat c.base.position_lon e'.lat e'.lon > c.base.max_range_m)
    (hfar_ac : ∀ e' ∈ es, e'.entity_id = e.entity_id →
        ctx.dist ac.base.position_lat ac.base.position_lon e'.lat e'.lon > ac.base.max_range_m)
    (hfa_id : e.entity_id ≠ falseAlarmId now) :
    (∀ rd ∈ (radarDetect ctx r now er fr es).2, rd.entity_id ≠ e.entity_id)
    ∧ (∀ rd ∈ (adsbDetect ctx a now ea es).2, rd.entity_id ≠ e.entity_id)
    ∧ (∀ rd ∈ (cameraDetect ctx c now ec es).2, rd.entity_id ≠ e.entity_id)
    ∧ (∀ rd ∈ (acousticDetect ctx ac now eac es).2, rd.entity_id ≠ e.entity_id) := by
  refine ⟨?_, ?_, ?_, ?_⟩
  · intro rd hrd heq
    by_cases hs : shouldUpdate r.base now = true
    · rw [radarDetect_run hs] at hrd
      have hsrc : (∃ e' ∈ es, radarScanOne ctx r now (er e') e' = some rd)
          ∨ rd = radarFalseReading r now fr := by
        by_cases hfa : fr.faDraw < r.false_alarm_rate
        · rw [if_pos hfa] at hrd
          rcases List.mem_append.mp hrd with h1 | h1
          · exact Or.inl (List.mem_filterMap.mp h1)
          · exact Or.inr (List.mem_singleton.mp h1)
        · rw [if_neg hfa] at hrd
          exact Or.inl (List.mem_filterMap.mp hrd)
      rcases hsrc with ⟨e', he', hsome⟩ | hfalse
      · obtain ⟨hid, hcd⟩ := radarScanOne_some hsome
        exact canDetect_range_le ctx r.base e' hcd
          (hfar_r e' he' (hid.symm.trans heq))
      · rw [hfalse] at heq
        exact hfa_id (heq.symm)
    · rw [radarDetect_skip (Bool.eq_false_iff.mpr hs)] at hrd
      simp at hrd
  · intro rd hrd heq
    by_cases hs : shouldUpdate a.base now = true
    · rw [adsbDetect_run hs] at hrd
      obtain ⟨e', he', hsome⟩ := List.mem_filterMap.mp hrd
      obtain ⟨hid, hcd, _⟩ := adsbScanOne_some hsome
      exact canDetect_range_le ctx a.base e' hcd
        (hfar_a e' he' (hid.symm.trans heq))
    · rw [adsbDetect_skip (Bool.eq_false_iff.mpr hs)] at hrd
      simp at hrd
  · intro rd hrd heq
    by_cases hs : shouldUpdate c.base now = true
    · rw [cameraDetect_run hs] at hrd
      obtain ⟨e', he', hsome⟩ := List.mem_filterMap.mp hrd
      obtain ⟨hid, hcd⟩ := cameraScanOne_some hsome
      exact canDetect_range_le ctx c.base e' hcd
        (hfar_c e' he' (hid.symm.trans heq))
    · rw [cameraDetect_skip (Bool.eq_false_iff.mpr hs)] at hrd
      simp at hrd
  · intro rd hrd heq
    by_cases hs : shouldUpdate ac.base now = true
    · rw [acousticDetect_run hs] at hrd
      obtain ⟨e', he', hsome⟩ := List.mem_filterMap.mp hrd
      obtain ⟨hid, hcd⟩ := acousticScanOne_some hsome
      exact canDetect_range_le ctx ac.base e' hcd
        (hfar_ac e' he' (hid.symm.trans heq))
    · rw [acousticDetect_skip (Bool.eq_false_iff.mpr hs)] at hrd
      simp at hrd

/-- An entity 10 degrees of latitude from the origin (over a million
meters away from every sample sensor under `flatCtx`, matching real
geodesic distance qualitatively), whose id happens to be the radar's
false-alarm identifier for scan time `201/2` (the string
`false_alarm_100`, since `int(100.5) = 100`). -/
def farEcho : Entity :=
  { entity_id := falseAlarmId (201 / 2), entity_type := .unknown_contact,
    lat := 10, lon := 0, altitude_m := 0, heading_deg := 0, speed_ms := 0,
    movement_pattern := none, metadata := [], created_at := 0, last_update := 0 }

/-- An ordinary far-away entity: 10 degrees of latitude (over a million
meters) from the origin-based sample sensors, beyond all their ranges. -/
def sampleFar : Entity :=
  { entity_id := "bogey-9", entity_type := .aircraft,
    lat := 10, lon := 0, altitude_m := 9000, heading_deg := 0, speed_ms := 200,
    movement_pattern := none, metadata := [], created_at := 0, last_update := 0 }

/-- Witness for C2's amended theorem: the out-of-range entity
`sampleFar` (id `bogey-9`, distinct from the scan's false-alarm id)
yields empty reading lists on the three entity-only sensors; the radar
returns exactly its false-alarm reading, and that reading's id differs
from `sampleFar`'s — the last fact obtained by applying the amended
theorem to the computed membership. -/
theorem range_gate_amended_witness :
    (adsbDetect flatCtx sampleADSB 10 (fun _ => adsbRand0) [sampleFar]).2 = []
    ∧ (cameraDetect flatCtx sampleCamera 10 (fun _ => cameraRand0) [sampleFar]).2 = []
    ∧ (acousticDetect flatCtx sampleAcoustic 10 (fun _ => acousticRand0) [sampleFar]).2 = []
    ∧ (radarDetect flatCtx sampleRadar 10 (fun _ => radarRand0) faRandHit [sampleFar]).2
        = [radarFalseReading sampleRadar 10 faRandHit]
    ∧ (radarFalseReading sampleRadar 10 faRandHit).entity_id ≠ sampleFar.entity_id := by
  have h := range_gate_amended flatCtx 10 sampleRadar sampleADSB sampleCamera sampleAcoustic
    (fun _ => radarRand0) faRandHit (fun _ => adsbRand0) (fun _ => cameraRand0)
    (fun _ => acousticRand0) [sampleFar] sampleFar
    (fun e' he' _ => by
      rw [List.mem_singleton.mp he']
      norm_num [flatCtx, sampleRadar, sampleBase, sampleFar])
    (fun e' he' _ => by
      rw [List.mem_singleton.mp he']
      norm_num [flatCtx, sampleADSB, sampleBase, sampleFar])
    (fun e' he' _ => by
      rw [List.mem_singleton.mp he']
      norm_num [flatCtx, sampleCamera, sampleBase, sampleFar])
    (fun e' he' _ => by
      rw [List.mem_singleton.mp he']
      norm_num [flatCtx, sampleAcoustic, sampleBase, sampleFar])
    (by decide)
  have hadsb : (adsbDetect flatCtx sampleADSB 10 (fun _ => adsbRand0) [sampleFar]).2 = [] := by
    rw [adsbDetect_run (by norm_num [shouldUpdate, sampleADSB, sampleBase])]
    have hcd : canDetect flatCtx sampleADSB.base sampleFar = false := by
      norm_num [canDetect, flatCtx, sampleADSB, sampleBase, sampleFar]
    simp [adsbScanOne, hcd]
  have hcam : (cameraDetect flatCtx sampleCamera 10 (fun _ => cameraRand0) [sampleFar]).2 = [] := by
    rw [cameraDetect_run (by norm_num [shouldUpdate, sampleCamera, sampleBase])]
    have hcd : canDetect flatCtx sampleCamera.base sampleFar = false := by
      norm_num [canDetect, flatCtx, sampleCamera, sampleBase, sampleFar]
    simp [cameraScanOne, hcd]
  have hac : (acousticDetect flatCtx sampleAcoustic 10 (fun _ => acousticRand0) [sampleFar]).2 = [] := by
    rw [acousticDetect_run (by norm_num [shouldUpdate, sampleAcoustic, sampleBase])]
    have hcd : canDetect flatCtx sampleAcoustic.base sampleFar = false := by
      norm_num [canDetect, flatCtx, sampleAcoustic, sampleBase, sampleFar]
    simp [acousticScanOne, hcd]
  have hrad : (radarDetect flatCtx sampleRadar 10 (fun _ => radarRand0) faRandHit [sampleFar]).2
      = [radarFalseReading sampleRadar 10 faRandHit] := by
    rw [radarDetect_run (by norm_num [shouldUpdate, sampleRadar, sampleBase])]
    rw [if_pos (by norm_num [faRandHit, sampleRadar])]
    have hcd : canDetect flatCtx sampleRadar.base sampleFar = false := by
      norm_num [canDetect, flatCtx, sampleRadar, sampleBase, sampleFar]
    simp [radarScanOne, hcd]
  refine ⟨hadsb, hcam, hac, hrad, ?_⟩
  exact h.1 (radarFalseReading sampleRadar 10 faRandHit)
    (by rw [hrad]; exact List.mem_singleton_self _)

/-- Counterexample to C2 as stated: the out-of-range entity `farEcho`
(1.1e6 m from the 50 km radar) is named `false_alarm_100`; on a scan at
time `100.5` whose false-alarm trial succeeds, `detect_entities`
returns a reading whose `entity_id` equals that entity's id. -/
theorem radar_far_entity_id_cex :
    flatCtx.dist sampleRadar.base.position_lat sampleRadar.base.position_lon
        farEcho.lat farEcho.lon > sampleRadar.base.max_range_m
    ∧ ∃ rd ∈ (radarDetect flatCtx sampleRadar (201 / 2)
        (fun _ => radarRand0) faRandHit [farEcho]).2,
        rd.entity_id = farEcho.entity_id := by
  constructor
  · norm_num [flatCtx, sampleRadar, sampleBase, farEcho]
  · refine ⟨radarFalseReading sampleRadar (201 / 2) faRandHit, ?_, rfl⟩
    rw [radarDetect_run (by norm_num [shouldUpdate, sampleRadar, sampleBase])]
    rw [if_pos (by norm_num [faRandHit, sampleRadar])]
    have hnone : radarScanOne flatCtx sampleRadar (201 / 2) radarRand0 farEcho = none := by
      have hcd : canDetect flatCtx sampleRadar.base farEcho = false := by
        norm_num [canDetect, flatCtx, sampleRadar, sampleBase, farEcho]
      simp [radarScanOne, hcd]
    simp [hnone]

/-! ## Waypoint termination (C5) -/

/-- Iterated `WaypointPattern.update` calls over a list of time
deltas, threading the mutated pattern state. -/
def waypointRun (ctx : GeoCtx) (p : WaypointPattern) (k : Kin) :
    List ℚ → WaypointPattern × Kin
  | [] => (p, k)
  | dt :: rest =>
    let r := waypointUpdate ctx p k dt
    waypointRun ctx r.1 r.2 rest

/-- One update of a non-looping pattern already targeting its final
waypoint and within the arrival threshold: the source's terminal branch
snaps the position to the waypoint, keeps the heading, forces speed 0
and leaves the index at the last waypoint. -/
lemma waypoint_terminal_step
    {ctx : GeoCtx} {p : WaypointPattern} {k : Kin} {wlat wlon : ℚ}
    {walt : Option ℚ} (dt : ℚ)
    (hloop : p.loop = false)
    (hne : p.waypoints ≠ [])
    (hidx : p.current_waypoint_idx = p.waypoints.length - 1)
    (hget : p.waypoints.getD p.current_waypoint_idx (0, 0, none) = (wlat, wlon, walt))
    (harr : ctx.dist k.lat k.lon wlat wlon ≤ p.arrival_threshold_m) :
    waypointUpdate ctx p k dt =
      (p, { lat := wlat, lon := wlon, altitude_m := walt.getD k.altitude_m,
            heading_deg := k.heading_deg, speed_ms := 0 }) := by
  obtain ⟨ws, sp, th, lp, idx⟩ := p
  simp only at hloop hidx hget harr
  subst hloop
  subst hidx
  unfold waypointUpdate
  rw [if_neg (by simpa [List.isEmpty_iff] using hne)]
  dsimp only
  rw [hget]
  dsimp only
  rw [if_pos harr]
  have hlenpos : 0 < ws.length := List.length_pos.mpr (by simpa using hne)
  rw [if_pos (by omega)]
  simp only [Bool.false_eq_true, if_false]

/-- The terminal configuration is a fixed point of `update`: from the
final waypoint itself the arrival distance is 0, so every further call
reproduces the pattern state and kinematics exactly. -/
lemma waypoint_terminal_fixed
    {ctx : GeoCtx} {p : WaypointPattern} {wlat wlon : ℚ} {walt : Option ℚ}
    (hrefl : ∀ la lo, ctx.dist la lo la lo = 0)
    (hthr : 0 ≤ p.arrival_threshold_m)
    (hloop : p.loop = false)
    (hne : p.waypoints ≠ [])
    (hidx : p.current_waypoint_idx = p.waypoints.length - 1)
    (hget : p.waypoints.getD p.current_waypoint_idx (0, 0, none) = (wlat, wlon, walt))
    {k : Kin}
    (hk : k.lat = wlat ∧ k.lon = wlon ∧ k.speed_ms = 0 ∧
      walt.getD k.altitude_m = k.altitude_m)
    (dt : ℚ) :
    waypointUpdate ctx p k dt = (p, k) := by
  obtain ⟨h1, h2, h3, h4⟩ := hk
  rw [waypoint_terminal_step dt hloop hne hidx hget
    (by rw [h1, h2, hrefl]; exact hthr)]
  cases k
  simp_all

/-- C5: a non-looping waypoint pattern with a non-empty list, currently
targeting its final waypoint with the entity within
`arrival_threshold_m` of it, reports `speed_ms = 0` and position equal
to that final waypoint on every subsequent `update` call (any number of
calls, any time deltas).  The two `ctx` hypotheses are facts of real
geodesic distance: it is non-negative and vanishes between identical
points. -/
theorem waypoint_termination
    (ctx : GeoCtx) (p : WaypointPattern) (k : Kin)
    (wlat wlon : ℚ) (walt : Option ℚ)
    (hnn : ∀ la lo la2 lo2, 0 ≤ ctx.dist la lo la2 lo2)
    (hrefl : ∀ la lo, ctx.dist la lo la lo = 0)
    (hloop : p.loop = false)
    (hne : p.waypoints ≠ [])
    (hidx : p.current_waypoint_idx = p.waypoints.length - 1)
    (hget : p.waypoints.getD p.current_waypoint_idx (0, 0, none) = (wlat, wlon, walt))
    (harr : ctx.dist k.lat k.lon wlat wlon ≤ p.arrival_threshold_m)
    (dt0 : ℚ) (dts : List ℚ) :
    (waypointRun ctx (waypointUpdate ctx p k dt0).1 (waypointUpdate ctx p k dt0).2 dts).2.speed_ms = 0
    ∧ (waypointRun ctx (waypointUpdate ctx p k dt0).1 (waypointUpdate ctx p k dt0).2 dts).2.lat = wlat
    ∧ (waypointRun ctx (waypointUpdate ctx p k dt0).1 (waypointUpdate ctx p k dt0).2 dts).2.lon = wlon := by
  have hthr : 0 ≤ p.arrival_threshold_m := le_trans (hnn _ _ _ _) harr
  have hstep :
      waypointUpdate ctx p k dt0 =
        (p, { lat := wlat, lon := wlon, altitude_m := walt.getD k.altitude_m,
              heading_deg := k.heading_deg, speed_ms := 0 }) :=
    waypoint_terminal_step dt0 hloop hne hidx hget harr
  rw [hstep]
  set k1 : Kin := { lat := wlat, lon := wlon, altitude_m := walt.getD k.altitude_m,
                    heading_deg := k.heading_deg, speed_ms := 0 } with hk1def
  have hk1 : k1.lat = wlat ∧ k1.lon = wlon ∧ k1.speed_ms = 0 ∧
      walt.getD k1.altitude_m = k1.altitude_m := by
    refine ⟨rfl, rfl, rfl, ?_⟩
    cases walt <;> rfl
  have hrun : waypointRun ctx p k1 dts = (p, k1) := by
    induction dts with
    | nil => rfl
    | cons d rest ih =>
      have hfix := waypoint_terminal_fixed hrefl hthr hloop hne hidx hget hk1 d
      simp only [waypointRun, hfix]
      exact ih
  rw [hrun]
  exact ⟨rfl, rfl, rfl⟩

/-- A single-waypoint, non-looping sample pattern. -/
def wpPat : WaypointPattern :=
  { waypoints := [(5, 6, some 300)], speed_ms := 40,
    arrival_threshold_m := 100, loop := false, current_waypoint_idx := 0 }

/-- A kinematic state sitting on `wpPat`'s final waypoint. -/
def wpKin : Kin :=
  { lat := 5, lon := 6, altitude_m := 0, heading_deg := 90, speed_ms := 40 }

/-- Witness for C5: from the reached final waypoint, three further
updates (deltas 1, 1 and 2 seconds) all report speed 0 and the final
waypoint's position. -/
theorem waypoint_termination_witness :
    (waypointRun flatCtx (waypointUpdate flatCtx wpPat wpKin 1).1
        (waypointUpdate flatCtx wpPat wpKin 1).2 [1, 2]).2.speed_ms = 0
    ∧ (waypointRun flatCtx (waypointUpdate flatCtx wpPat wpKin 1).1
        (waypointUpdate flatCtx wpPat wpKin 1).2 [1, 2]).2.lat = 5
    ∧ (waypointRun flatCtx (waypointUpdate flatCtx wpPat wpKin 1).1
        (waypointUpdate flatCtx wpPat wpKin 1).2 [1, 2]).2.lon = 6 :=
  waypoint_termination flatCtx wpPat wpKin 5 6 (some 300)
    (by
      intro la lo la2 lo2
      show 0 ≤ (|la - la2| + |lo - lo2|) * 111000
      positivity)
    (by intro la lo; simp [flatCtx])
    rfl
    (by simp [wpPat])
    rfl
    rfl
    (by norm_num [flatCtx, wpPat, wpKin])
    1 [1, 2]

/-! ## Zero-delta updates and entity invariants (C6, C7) -/

/-- A kinematic state away from the sample patterns' geometry. -/
def kin34 : Kin :=
  { lat := 34, lon := -118, altitude_m := 500, heading_deg := 0, speed_ms := 10 }

/-- A leader flying at (10, 20). -/
def leaderKin : Kin :=
  { lat := 10, lon := 20, altitude_m := 1000, heading_deg := 45, speed_ms := 80 }

/-- A formation slot with zero offset: the follower sits exactly on the
leader. -/
def sampleFormation : FormationPattern :=
  { leader := leaderKin, offset_lat_m := 0, offset_lon_m := 0,
    offset_altitude_m := 0 }

/-- A circular patrol around the origin with the source defaults. -/
def samplePatrol : PatrolPattern :=
  { center_lat := 0, center_lon := 0, pattern_type := "circular",
    radius_m := 5000, speed_ms := 50, altitude_m := 1000, angle := 0 }

/-- A bounded random walk around the origin. -/
def sampleWalk : RandomWalkPattern :=
  { initial_lat := 0, initial_lon := 0, speed_ms := 30, max_deviation_deg := 45,
    boundary_radius_m := some 10000, altitude_m := 1000, current_heading := 0 }

/-- C6 (amended): `update` with `delta_time = 0` does not return the
supplied state unchanged.  What does hold: Patrol and Formation compute
their output from the pattern state alone (any two supplied states give
the same result), Patrol's phase angle does not advance at zero delta,
and Waypoint (outside the arrival threshold), RandomWalk and Evasive
move zero distance — they keep the supplied position (and Waypoint the
altitude) — but overwrite speed with the pattern's speed (an
empty-waypoint pattern forces speed 0) and Waypoint overwrites heading
with the bearing to its target. -/
theorem update_zero_dt_amended (ctx : GeoCtx)
    (hdest : ∀ la lo b, ctx.destination la lo b 0 = (la, lo)) :
    (∀ p : PatrolPattern, ∀ k k' : Kin, ∀ dt : ℚ,
        patrolUpdate ctx p k dt = patrolUpdate ctx p k' dt)
    ∧ (∀ p : PatrolPattern, ∀ k : Kin, (patrolUpdate ctx p k 0).1.angle = p.angle)
    ∧ (∀ p : FormationPattern, ∀ k k' : Kin, ∀ dt : ℚ,
        formationUpdate ctx p k dt = formationUpdate ctx p k' dt)
    ∧ (∀ rnd : MoveRand, ∀ p : RandomWalkPattern, ∀ k : Kin,
        (randomWalkUpdate ctx rnd p k 0).2.lat = k.lat
        ∧ (randomWalkUpdate ctx rnd p k 0).2.lon = k.lon
        ∧ (randomWalkUpdate ctx rnd p k 0).2.speed_ms = p.speed_ms)
    ∧ (∀ rnd : MoveRand, ∀ now : ℚ, ∀ p : EvasivePattern, ∀ k : Kin,
        (evasiveUpdate ctx rnd now p k 0).2.lat = k.lat
        ∧ (evasiveUpdate ctx rnd now p k 0).2.lon = k.lon)
    ∧ (∀ p : WaypointPattern, ∀ k : Kin, ∀ dt : ℚ, p.waypoints = [] →
        (waypointUpdate ctx p k dt).2 = { k with speed_ms := 0 })
    ∧ (∀ p : WaypointPattern, ∀ k : Kin, ∀ tlat tlon : ℚ, ∀ talt : Option ℚ,
        p.waypoints ≠ [] →
        p.waypoints.getD p.current_waypoint_idx (0, 0, none) = (tlat, tlon, talt) →
        0 ≤ ctx.dist k.lat k.lon tlat tlon →
        ¬ ctx.dist k.lat k.lon tlat tlon ≤ p.arrival_threshold_m →
        (waypointUpdate ctx p k 0).2.lat = k.lat
        ∧ (waypointUpdate ctx p k 0).2.lon = k.lon
        ∧ (waypointUpdate ctx p k 0).2.altitude_m = k.altitude_m
        ∧ (waypointUpdate ctx p k 0).2.speed_ms = p.speed_ms
        ∧ (waypointUpdate ctx p k 0).2.heading_deg = ctx.bearing k.lat k.lon tlat tlon) := by
  refine ⟨fun p k k' dt => rfl, ?_, fun p k k' dt => rfl, ?_, ?_, ?_, ?_⟩
  · intro p k
    unfold patrolUpdate
    split_ifs <;> simp
  · intro rnd p k
    unfold randomWalkUpdate
    simp only [mul_zero, hdest]
    split_ifs <;> simp
  · intro rnd now p k
    unfold evasiveUpdate
    split_ifs <;> simp [mul_zero, hdest]
  · intro p k dt hws
    unfold waypointUpdate
    rw [if_pos (by simp [hws])]
  · intro p k tlat tlon talt hne hget hd0 hfar
    unfold waypointUpdate
    rw [if_neg (by simpa [List.isEmpty_iff] using hne)]
    dsimp only
    rw [hget]
    dsimp only
    rw [if_neg hfar]
    unfold waypointMove
    dsimp only
    rw [mul_zero, min_eq_left hd0, hdest]
    simp

/-- Witness for C6's amended theorem at concrete inputs: the patrol
output is independent of the supplied state and its phase angle holds
at zero delta; the random walk keeps the supplied position at zero
delta. -/
theorem update_zero_dt_amended_witness :
    patrolUpdate flatCtx samplePatrol kin34 0 = patrolUpdate flatCtx samplePatrol wpKin 0
    ∧ (patrolUpdate flatCtx samplePatrol kin34 0).1.angle = samplePatrol.angle
    ∧ (randomWalkUpdate flatCtx moveRand0 sampleWalk kin34 0).2.lat = kin34.lat := by
  have h := update_zero_dt_amended flatCtx (by intro la lo b; simp [flatCtx])
  exact ⟨h.1 samplePatrol kin34 wpKin 0, h.2.1 samplePatrol kin34,
    (h.2.2.2.1 moveRand0 sampleWalk kin34).1⟩

/-- Counterexample to C6 as stated: a Formation update with
`delta_time = 0` does not return the supplied state — it snaps to the
leader's position (latitude 10) regardless of the supplied latitude
(34). -/
theorem formation_zero_dt_cex :
    (formationUpdate flatCtx sampleFormation kin34 0).2.lat = 10
    ∧ kin34.lat = 34
    ∧ (formationUpdate flatCtx sampleFormation kin34 0).2 ≠ kin34 := by
  have hlat : (formationUpdate flatCtx sampleFormation kin34 0).2.lat = 10 := by
    norm_num [formationUpdate, sampleFormation, leaderKin, flatCtx, GeoCtx.radians]
  refine ⟨hlat, rfl, fun h => ?_⟩
  rw [h] at hlat
  norm_num [kin34] at hlat

/-- A leader one degree from the pole. -/
def poleLeader : Kin :=
  { lat := 89, lon := 0, altitude_m := 1000, heading_deg := 0, speed_ms := 50 }

/-- A formation slot 200 km further north than its near-pole leader. -/
def poleFormation : FormationPattern :=
  { leader := poleLeader, offset_lat_m := 200000, offset_lon_m := 0,
    offset_altitude_m := 0 }

/-- A wingman entity owning the near-pole formation pattern, starting
from a valid latitude. -/
def poleWingman : Entity :=
  { entity_id := "wing-1", entity_type := .aircraft,
    lat := 88, lon := 0, altitude_m := 1000, heading_deg := 0, speed_ms := 50,
    movement_pattern := some (.formation poleFormation), metadata := [],
    created_at := 0, last_update := 0 }

/-- C7 (amended): `Entity.step` performs no clamping — it copies the
pattern output verbatim into the entity and stamps `last_update` with
the clock reading.  The invariants therefore hold exactly when the
pattern's output satisfies them: latitude/longitude stay in range when
the output is in range, speed is non-negative when the reported speed
is, and `last_update ≥ created_at` whenever the clock reading is at
least `created_at`. -/
theorem entity_step_invariants_amended (ctx : GeoCtx) (rnd : MoveRand) (now : ℚ)
    (e : Entity) (dt : ℚ) (p : MovementPattern)
    (hp : e.movement_pattern = some p) :
    (e.step ctx rnd now dt).lat = (p.update ctx rnd now e.kin dt).2.lat
    ∧ (e.step ctx rnd now dt).lon = (p.update ctx rnd now e.kin dt).2.lon
    ∧ (e.step ctx rnd now dt).speed_ms = (p.update ctx rnd now e.kin dt).2.speed_ms
    ∧ (e.step ctx rnd now dt).last_update = now
    ∧ (e.step ctx rnd now dt).created_at = e.created_at
    ∧ (-90 ≤ (p.update ctx rnd now e.kin dt).2.lat ∧ (p.update ctx rnd now e.kin dt).2.lat ≤ 90 →
        -90 ≤ (e.step ctx rnd now dt).lat ∧ (e.step ctx rnd now dt).lat ≤ 90)
    ∧ (-180 ≤ (p.update ctx rnd now e.kin dt).2.lon ∧ (p.update ctx rnd now e.kin dt).2.lon ≤ 180 →
        -180 ≤ (e.step ctx rnd now dt).lon ∧ (e.step ctx rnd now dt).lon ≤ 180)
    ∧ (0 ≤ (p.update ctx rnd now e.kin dt).2.speed_ms → 0 ≤ (e.step ctx rnd now dt).speed_ms)
    ∧ (e.created_at ≤ now →
        (e.step ctx rnd now dt).created_at ≤ (e.step ctx rnd now dt).last_update) := by
  simp only [Entity.step, hp]
  tauto

/-- Witness for C7's amended theorem at the concrete wingman entity. -/
theorem entity_step_invariants_amended_witness :
    (poleWingman.step flatCtx moveRand0 1 1).lat =
      ((MovementPattern.formation poleFormation).update flatCtx moveRand0 1 poleWingman.kin 1).2.lat
    ∧ (poleWingman.step flatCtx moveRand0 1 1).last_update = 1
    ∧ (poleWingman.step flatCtx moveRand0 1 1).created_at ≤
        (poleWingman.step flatCtx moveRand0 1 1).last_update := by
  have h := entity_step_invariants_amended flatCtx moveRand0 1 poleWingman 1
    (.formation poleFormation) rfl
  exact ⟨h.1, h.2.2.2.1, h.2.2.2.2.2.2.2.2 (by norm_num [poleWingman])⟩

/-- Counterexample to C7 as stated: starting from a valid latitude
(88°), a single `step` with `delta_time = 1 ≥ 0` drives the wingman's
latitude to `89 + 200000/111000 > 90`, because the Formation pattern
adds its raw meter offset in degrees and `Entity.step` applies it with
no range clamping. -/
theorem entity_lat_range_cex :
    poleWingman.lat = 88
    ∧ (poleWingman.step flatCtx moveRand0 1 1).lat > 90 := by
  refine ⟨rfl, ?_⟩
  norm_num [Entity.step, poleWingman, MovementPattern.update, formationUpdate,
    poleFormation, poleLeader, flatCtx, GeoCtx.radians, Entity.kin]

/-! ## Engine fault isolation and delta-time validation (C8, C9) -/

/-- The sensor loop is compositional over the sensor list. -/
lemma sensorPass_append (m : Bool) (ents : List Entity)
    (l1 l2 : List EngineSensor) :
    sensorPass m ents (l1 ++ l2) =
      ((sensorPass m ents l1).1 ++ (sensorPass m ents l2).1,
       (sensorPass m ents l1).2 ++ (sensorPass m ents l2).2) := by
  induction l1 with
  | nil => simp [sensorPass]
  | cons s rest ih =>
    by_cases ha : s.is_active = true
    · cases hd : s.detect ents with
      | ok readings =>
        simp [sensorPass, ha, hd, ih, List.append_assoc]
      | error msg =>
        simp [sensorPass, ha, hd, ih, List.append_assoc]
    · simp [sensorPass, ha, ih]

/-- An active sensor whose `detect_entities` raises contributes no
readings; the error is recorded exactly when metrics is present. -/
lemma sensorPass_error_single (m : Bool) (ents : List Entity)
    (f : EngineSensor) (msg : String)
    (hactive : f.is_active = true) (herr : f.detect ents = .error msg) :
    sensorPass m ents [f] = ([], if m then [f.sensor_id] else []) := by
  simp [sensorPass, hactive, herr]

/-- C8: a sensor raising inside `detect_entities` is caught at the
engine boundary: the tick's collected readings are exactly those of the
same engine state with the faulty sensor removed (all remaining sensors
are still invoked and contribute normally), the fault is attributed to
that sensor via the metrics collaborator when present, and the tick
completes — entities still advance and entity counts are still
reported, identically. -/
theorem sensor_fault_isolation (ctx : GeoCtx) (erand : Entity → MoveRand)
    (now : ℚ) (st : EngineState) (dt : ℚ)
    (pre post : List EngineSensor) (f : EngineSensor) (msg : String)
    (hs : st.sensors = pre ++ f :: post)
    (hactive : f.is_active = true)
    (herr : f.detect (st.entities.map (fun e => e.step ctx (erand e) now dt))
      = .error msg) :
    (engineStep ctx erand now st dt).readings
      = (engineStep ctx erand now { st with sensors := pre ++ post } dt).readings
    ∧ (st.metricsPresent = true →
        f.sensor_id ∈ (engineStep ctx erand now st dt).errorsRecorded)
    ∧ (engineStep ctx erand now st dt).state.entities
      = (engineStep ctx erand now { st with sensors := pre ++ post } dt).state.entities
    ∧ (engineStep ctx erand now st dt).entityCounts
      = (engineStep ctx erand now { st with sensors := pre ++ post } dt).entityCounts := by
  set ents1 := st.entities.map (fun e => e.step ctx (erand e) now dt) with hents
  have hsplit : pre ++ f :: post = (pre ++ [f]) ++ post := by simp
  have hpassF := sensorPass_error_single st.metricsPresent ents1 f msg hactive herr
  have hfull : sensorPass st.metricsPresent ents1 st.sensors =
      ((sensorPass st.metricsPresent ents1 pre).1
        ++ (sensorPass st.metricsPresent ents1 post).1,
       (sensorPass st.metricsPresent ents1 pre).2
        ++ (if st.metricsPresent then [f.sensor_id] else [])
        ++ (sensorPass st.metricsPresent ents1 post).2) := by
    rw [hs, hsplit, sensorPass_append, sensorPass_append, hpassF]
    simp
  have hdrop : sensorPass st.metricsPresent ents1 (pre ++ post) =
      ((sensorPass st.metricsPresent ents1 pre).1
        ++ (sensorPass st.metricsPresent ents1 post).1,
       (sensorPass st.metricsPresent ents1 pre).2
        ++ (sensorPass st.metricsPresent ents1 post).2) :=
    sensorPass_append _ _ _ _
  refine ⟨?_, ?_, rfl, rfl⟩
  · show (sensorPass st.metricsPresent ents1 st.sensors).1
      = (sensorPass st.metricsPresent ents1 (pre ++ post)).1
    rw [hfull, hdrop]
  · intro hm
    show f.sensor_id ∈ (sensorPass st.metricsPresent ents1 st.sensors).2
    rw [hfull]
    simp [hm]

/-- A healthy sensor that reports nothing. -/
def okSensor : EngineSensor :=
  { sensor_id := "ok-1", is_active := true, detect := fun _ => .ok [] }

/-- A sensor whose `detect_entities` always raises. -/
def faultySensor : EngineSensor :=
  { sensor_id := "bad-1", is_active := true, detect := fun _ => .error "boom" }

/-- An engine state with the faulty sensor between two healthy ones. -/
def sampleEngineSt : EngineState :=
  { sensors := [okSensor, faultySensor, okSensor],
    entities := [sampleEntity], metricsPresent := true, publisherPresent := false }

/-- Witness for C8 at a concrete engine state: with the faulty sensor
second of three, the tick's readings equal those without it and the
error is attributed to `bad-1`. -/
theorem sensor_fault_isolation_witness :
    (engineStep flatCtx (fun _ => moveRand0) 7 sampleEngineSt 1).readings
      = (engineStep flatCtx (fun _ => moveRand0) 7
          { sampleEngineSt with sensors := [okSensor] ++ [okSensor] } 1).readings
    ∧ faultySensor.sensor_id ∈
        (engineStep flatCtx (fun _ => moveRand0) 7 sampleEngineSt 1).errorsRecorded := by
  have h := sensor_fault_isolation flatCtx (fun _ => moveRand0) 7 sampleEngineSt 1
    [okSensor] [okSensor] faultySensor "boom" rfl rfl rfl
  exact ⟨h.1, h.2.1 rfl⟩

/-- C9 (amended): neither `Engine.step` nor the movement patterns
validate `delta_time` — a negative value is neither rejected with an
error nor clamped.  The engine forwards it verbatim to every entity's
pattern, and the patterns compute with it: a patrol's phase angle moves
strictly backwards.  (Every operation on this path is total float
arithmetic in the source, so no exception can arise either.) -/
theorem negative_dt_amended (ctx : GeoCtx) (erand : Entity → MoveRand)
    (now : ℚ) (st : EngineState) (dt : ℚ) (hdt : dt < 0) :
    (engineStep ctx erand now st dt).state.entities
      = st.entities.map (fun e => e.step ctx (erand e) now dt)
    ∧ (∀ p : PatrolPattern, ∀ k : Kin, 0 < p.speed_ms → 0 < p.radius_m →
        (patrolUpdate ctx p k dt).1.angle < p.angle) := by
  refine ⟨rfl, ?_⟩
  intro p k hsp hr
  have hneg : p.speed_ms / p.radius_m * dt < 0 :=
    mul_neg_of_pos_of_neg (div_pos hsp hr) hdt
  unfold patrolUpdate
  dsimp only
  split_ifs <;> (dsimp only; linarith)

/-- Witness for C9's amended theorem at a concrete negative delta: the
engine forwards `dt = -1` verbatim and the sample patrol's phase angle
strictly decreases. -/
theorem negative_dt_amended_witness :
    (engineStep flatCtx (fun _ => moveRand0) 7 sampleEngineSt (-1)).state.entities
      = sampleEngineSt.entities.map (fun e => e.step flatCtx moveRand0 7 (-1))
    ∧ (patrolUpdate flatCtx samplePatrol kin34 (-1)).1.angle < samplePatrol.angle := by
  have h := negative_dt_amended flatCtx (fun _ => moveRand0) 7 sampleEngineSt (-1)
    (by norm_num)
  exact ⟨h.1, h.2 samplePatrol kin34 (by norm_num [samplePatrol])
    (by norm_num [samplePatrol])⟩

/-- Counterexample to C9 as stated: a patrol update at
`delta_time = -1` neither raises nor clamps — it returns a normally
formed state computed from the negative delta (phase angle `-1/100`,
previous angle `0`, pattern speed reported as usual). -/
theorem negative_dt_proceeds_cex :
    (patrolUpdate flatCtx samplePatrol kin34 (-1)).1.angle = -(1 / 100)
    ∧ (patrolUpdate flatCtx samplePatrol kin34 0).1.angle = 0
    ∧ (patrolUpdate flatCtx samplePatrol kin34 (-1)).2.speed_ms = 50 := by
  norm_num [patrolUpdate, samplePatrol, flatCtx]

end LatticeSim
